import Mathlib

/-!
Verification development for the unillm streaming/retry/error core.

The definitions below are shallow embeddings of the TypeScript sources:
  * `src/errors.ts`  — error taxonomy, `LLMProviderError`, `wrapError`,
    `isRetryableCode`;
  * `src/retry.ts`   — `calculateDelay`, `withRetry` (delays and the
    `onRetry` telemetry callback do not influence results or attempt
    counts, so they are not part of the state);
  * `src/models.ts`  — `parseModelSpec`, `createModelSpec`, the
    credential-gated `generate` dispatch, `generateWithGroq`, and the
    Cloudflare SSE decoder `callCloudflareRestStream`;
  * `src/fluent.ts`  — the provider dispatch of `UnilmpBuilder.stream`
    and the generic Groq SSE decoder `createGroqStream`;
  * `src/streams.ts` — `CloudflareStreamChunk` and `cloudflareStreamToText`;
  * `src/streaming-handlers.ts` — the dedicated `gptOss120bHandler` line
    decoder.

JavaScript strings are modelled as `List Char` where character-level
processing matters; JSON values as the inductive `Json` with a
recursive-descent `jsonParse` standing in for `JSON.parse` (the `\uXXXX`
escape is approximated, and only the integer part of a numeric literal is
retained — no claim below depends on either).  A JavaScript exception is a
`RawValue`: either an `LLMProviderError`, a plain `Error` (carrying its
message), or a non-error value (carrying its stringification).
-/

/-- The error taxonomy of `src/errors.ts` (`LLMErrorCode`). -/
inductive LLMErrorCode where
  | RATE_LIMIT
  | AUTH
  | TIMEOUT
  | INVALID_RESPONSE
  | NETWORK
  | SERVER_ERROR
  | VALIDATION
  | UNKNOWN
deriving DecidableEq, BEq, Repr

/-- The fixed provider set of `src/types.ts` (`ProviderType`). -/
inductive ProviderType where
  | groq
  | gemini
  | cloudflare
  | openai
deriving DecidableEq, BEq, Repr

/-- `isRetryableCode` from `src/errors.ts`: default retryability table. -/
def isRetryableCode : LLMErrorCode → Bool
  | .RATE_LIMIT => true
  | .TIMEOUT => true
  | .NETWORK => true
  | .SERVER_ERROR => true
  | .AUTH => false
  | .INVALID_RESPONSE => false
  | .VALIDATION => false
  | .UNKNOWN => false

/-- The `LLMProviderError` class of `src/errors.ts`.  The TS `provider`
field has type `ProviderType | "unknown"`; `none` stands for `"unknown"`.
The `cause` field retains the message of the wrapped failure. -/
structure LLMProviderError where
  message : String
  code : LLMErrorCode
  provider : Option ProviderType
  statusCode : Option Nat
  retryable : Bool
  cause : Option String
deriving DecidableEq, Repr

/-- The `LLMProviderError` constructor: `retryable` defaults from the code
via `isRetryableCode` unless explicitly overridden. -/
def LLMProviderError.make (message : String) (code : LLMErrorCode)
    (provider : Option ProviderType) (statusCode : Option Nat)
    (retryable : Option Bool) (cause : Option String) : LLMProviderError :=
  ⟨message, code, provider, statusCode, retryable.getD (isRetryableCode code), cause⟩

/-- A JavaScript value reaching a `catch` / rejection site: an
`LLMProviderError` instance, a standard `Error` (its message), or any
other value (its `String(...)` form). -/
inductive RawValue where
  | providerError (e : LLMProviderError)
  | jsError (message : String)
  | other (stringified : String)
deriving DecidableEq, Repr

/-- Whether the raw value is an `LLMProviderError` instance
(`error instanceof LLMProviderError`). -/
def RawValue.isProviderError : RawValue → Bool
  | .providerError _ => true
  | _ => false

/-- Case-insensitive substring test: `s.toLowerCase().includes(pat)`
split into lowering (`lowerChars`) and the substring scan. -/
def hasSubstr (s pat : List Char) : Bool :=
  if pat.isPrefixOf s then true else
  match s with
  | [] => false
  | _ :: rest => hasSubstr rest pat

/-- `String.prototype.toLowerCase`, character by character. -/
def lowerChars (s : String) : List Char :=
  s.data.map Char.toLower

/-- Bool-valued `s.includes(pat)` on strings. -/
def containsStr (s pat : String) : Bool :=
  hasSubstr s.data pat.data

/-- Message prefixing in `wrapError`: `context ? context + ": " + msg : msg`. -/
def withContext (context : Option String) (msg : String) : String :=
  match context with
  | some c => c ++ ": " ++ msg
  | none => msg

/-- `wrapError` from `src/errors.ts`: an `LLMProviderError` is returned
unchanged; a standard `Error` is classified by case-insensitive substring
patterns of its own message (not the context-prefixed one); any other
value is stringified and classified `UNKNOWN`. -/
def wrapError (error : RawValue) (provider : Option ProviderType)
    (context : Option String) : LLMProviderError :=
  match error with
  | .providerError e => e
  | .jsError msg =>
    let message := withContext context msg
    let lowerMessage := lowerChars msg
    if hasSubstr lowerMessage "rate limit".data || hasSubstr lowerMessage "429".data then
      LLMProviderError.make message .RATE_LIMIT provider (some 429) none (some msg)
    else if hasSubstr lowerMessage "timeout".data || hasSubstr lowerMessage "timed out".data then
      LLMProviderError.make message .TIMEOUT provider none none (some msg)
    else if hasSubstr lowerMessage "unauthorized".data || hasSubstr lowerMessage "authentication".data
        || hasSubstr lowerMessage "api key".data || hasSubstr lowerMessage "401".data
        || hasSubstr lowerMessage "403".data then
      LLMProviderError.make message .AUTH provider none none (some msg)
    else if hasSubstr lowerMessage "network".data || hasSubstr lowerMessage "econnrefused".data
        || hasSubstr lowerMessage "enotfound".data || hasSubstr lowerMessage "fetch failed".data then
      LLMProviderError.make message .NETWORK provider none none (some msg)
    else if hasSubstr lowerMessage "500".data || hasSubstr lowerMessage "internal server".data then
      LLMProviderError.make message .SERVER_ERROR provider (some 500) none (some msg)
    else
      LLMProviderError.make message .UNKNOWN provider none none (some msg)
  | .other s =>
    LLMProviderError.make (withContext context s) .UNKNOWN provider none none none

/-- C7: `wrapError` applied to a value that is already an
`LLMProviderError` returns that very value, so re-wrapping the result of
any `wrapError` call is the identity on it (in the source this is object
identity: the same reference is returned). -/
theorem wrapError_idempotent (e : RawValue) :
    wrapError (.providerError (wrapError e none none)) none none = wrapError e none none :=
  rfl

/-- C10: the `context` argument of `wrapError` influences only the message
text; `code`, `statusCode` and `retryable` agree for any two contexts,
because classification inspects only the raw error's own message. -/
theorem wrapError_context_only_message (e : RawValue) (p : Option ProviderType)
    (c₁ c₂ : Option String) :
    (wrapError e p c₁).code = (wrapError e p c₂).code ∧
    (wrapError e p c₁).statusCode = (wrapError e p c₂).statusCode ∧
    (wrapError e p c₁).retryable = (wrapError e p c₂).retryable := by
  cases e with
  | providerError e => exact ⟨rfl, rfl, rfl⟩
  | jsError msg =>
    refine ⟨?_, ?_, ?_⟩ <;>
      · simp only [wrapError]
        repeat' split
        all_goals rfl
  | other s => exact ⟨rfl, rfl, rfl⟩

/-- `DEFAULT_RETRYABLE_CODES` from `src/retry.ts`. -/
def DEFAULT_RETRYABLE_CODES : List LLMErrorCode :=
  [.RATE_LIMIT, .TIMEOUT, .NETWORK, .SERVER_ERROR]

/-- `calculateDelay` from `src/retry.ts`, over exact arithmetic.  The
`jitter` parameter stands for the drawn `0.5 + Math.random()` factor:
`exponentialDelay = baseDelay * 2^attempt`, multiplied by the jitter,
then capped at `maxDelay`. -/
def calculateDelay (attempt : Nat) (baseDelay maxDelay jitter : ℚ) : ℚ :=
  let exponentialDelay := baseDelay * 2 ^ attempt
  let delayWithJitter := exponentialDelay * jitter
  min delayWithJitter maxDelay

/-- The retry loop of `withRetry` from `src/retry.ts`.  The operation `fn`
is modelled by the outcome of its `k`-th invocation (`k` 0-indexed);
`remaining = maxRetries - attempt` counts the attempts still allowed after
the current one, so `remaining = 0` is the `attempt === maxRetries` last
attempt (on which `shouldRetry` is false and the wrapped error is
re-thrown).  The returned `Nat` counts how many times `fn` was invoked.
Backoff delays and the `onRetry` callback affect neither the result nor
the count and are omitted. -/
def withRetryAux (fn : Nat → Except RawValue α) (retryableCodes : List LLMErrorCode) :
    Nat → Nat → Except LLMProviderError α × Nat
  | attempt, 0 =>
    match fn attempt with
    | .ok v => (.ok v, 1)
    | .error raw => (.error (wrapError raw none none), 1)
  | attempt, r + 1 =>
    match fn attempt with
    | .ok v => (.ok v, 1)
    | .error raw =>
      let wrappedError := wrapError raw none none
      if retryableCodes.contains wrappedError.code then
        let next := withRetryAux fn retryableCodes (attempt + 1) r
        (next.1, next.2 + 1)
      else
        (.error wrappedError, 1)

/-- `withRetry fn config`: the settled outcome of the retry loop. -/
def withRetry (fn : Nat → Except RawValue α) (retryableCodes : List LLMErrorCode)
    (maxRetries : Nat) : Except LLMProviderError α :=
  (withRetryAux fn retryableCodes 0 maxRetries).1

/-- How many times `withRetry` invokes the operation. -/
def withRetryCalls (fn : Nat → Except RawValue α) (retryableCodes : List LLMErrorCode)
    (maxRetries : Nat) : Nat :=
  (withRetryAux fn retryableCodes 0 maxRetries).2

/-- An `LLMProviderError` with code AUTH, as thrown by an operation that
always fails with an authentication failure. -/
def authFailure : LLMProviderError :=
  LLMProviderError.make "Authentication failed" .AUTH none none none none

/-- An operation that always rejects with the AUTH error. -/
def authOp : Nat → Except RawValue Nat :=
  fun _ => .error (.providerError authFailure)

/-- An `LLMProviderError` with code RATE_LIMIT. -/
def rateLimitFailure : LLMProviderError :=
  LLMProviderError.make "Rate limit exceeded" .RATE_LIMIT none none none none

/-- An operation that always rejects with the RATE_LIMIT error. -/
def rateLimitOp : Nat → Except RawValue Nat :=
  fun _ => .error (.providerError rateLimitFailure)

theorem withRetryAux_calls_le (fn : Nat → Except RawValue α)
    (codes : List LLMErrorCode) :
    ∀ remaining attempt, (withRetryAux fn codes attempt remaining).2 ≤ remaining + 1 := by
  intro remaining
  induction remaining with
  | zero =>
    intro attempt
    simp only [withRetryAux]
    cases fn attempt <;> simp
  | succ r ih =>
    intro attempt
    simp only [withRetryAux]
    cases fn attempt with
    | ok v => simp
    | error raw =>
      simp only
      split
      · have := ih (attempt + 1)
        simpa using Nat.add_le_add_right this 1
      · simp

/-- C1: the retry executor's attempt accounting.  (i) Total invocations
never exceed `maxRetries + 1`; (ii) a first call that succeeds returns its
value after exactly one invocation; (iii) a first call whose classified
code is outside the configured retryable codes rejects with the classified
error after exactly one invocation (so the always-AUTH operation under the
default codes is invoked exactly once); (iv) the always-RATE_LIMIT
operation under `maxRetries = 2` is invoked exactly 3 times and then
rejects with the classified rate-limit error. -/
theorem withRetry_attempt_accounting {α : Type} :
    (∀ (fn : Nat → Except RawValue α) (codes : List LLMErrorCode) (maxRetries : Nat),
      withRetryCalls fn codes maxRetries ≤ maxRetries + 1) ∧
    (∀ (fn : Nat → Except RawValue α) (codes : List LLMErrorCode) (maxRetries : Nat) (v : α),
      fn 0 = .ok v →
      withRetry fn codes maxRetries = .ok v ∧ withRetryCalls fn codes maxRetries = 1) ∧
    (∀ (fn : Nat → Except RawValue α) (codes : List LLMErrorCode) (maxRetries : Nat)
      (raw : RawValue),
      fn 0 = .error raw →
      codes.contains (wrapError raw none none).code = false →
      withRetry fn codes maxRetries = .error (wrapError raw none none) ∧
        withRetryCalls fn codes maxRetries = 1) ∧
    (withRetry authOp DEFAULT_RETRYABLE_CODES 3 = .error authFailure ∧
      withRetryCalls authOp DEFAULT_RETRYABLE_CODES 3 = 1) ∧
    (withRetry rateLimitOp DEFAULT_RETRYABLE_CODES 2 = .error rateLimitFailure ∧
      withRetryCalls rateLimitOp DEFAULT_RETRYABLE_CODES 2 = 3) := by
  refine ⟨?_, ?_, ?_, ?_, ?_⟩
  · intro fn codes maxRetries
    exact withRetryAux_calls_le fn codes maxRetries 0
  · intro fn codes maxRetries v h
    cases maxRetries <;>
      simp [withRetry, withRetryCalls, withRetryAux, h]
  · intro fn codes maxRetries raw h hcode
    cases maxRetries <;>
      simp [withRetry, withRetryCalls, withRetryAux, h, hcode]
  · exact ⟨rfl, rfl⟩
  · exact ⟨rfl, rfl⟩

/-- Witness for C1 at concrete inputs: a first-call success with value 7
is returned after one invocation, and a first-call AUTH failure (not in
the default retryable codes) is rejected after one invocation. -/
theorem withRetry_attempt_accounting_witness :
    withRetry (fun _ => .ok 7) DEFAULT_RETRYABLE_CODES 3 = .ok 7 ∧
    withRetryCalls (fun _ => .ok 7) DEFAULT_RETRYABLE_CODES 3 = 1 ∧
    withRetry authOp DEFAULT_RETRYABLE_CODES 5 = .error authFailure ∧
    withRetryCalls authOp DEFAULT_RETRYABLE_CODES 5 = 1 := by
  have h1 := (withRetry_attempt_accounting (α := Nat)).2.1
    (fun _ => .ok 7) DEFAULT_RETRYABLE_CODES 3 7 rfl
  have h2 := (withRetry_attempt_accounting (α := Nat)).2.2.1
    authOp DEFAULT_RETRYABLE_CODES 5 (.providerError authFailure) rfl (by decide)
  exact ⟨h1.1, h1.2, h2.1, h2.2⟩

/-- C5: `calculateDelay` is exactly `min maxDelay (baseDelay * 2^attempt *
jitter)` — the cap applied after the jitter multiplication — for every
attempt, positive base, cap at least the base, and jitter in `[0.5, 1.5)`;
with the jitter fixed at 1 it gives the spec's example values. -/
theorem calculateDelay_spec :
    (∀ (attempt : Nat) (baseDelay maxDelay jitter : ℚ),
      0 < baseDelay → baseDelay ≤ maxDelay →
      1 / 2 ≤ jitter → jitter < 3 / 2 →
      calculateDelay attempt baseDelay maxDelay jitter =
        min maxDelay (baseDelay * 2 ^ attempt * jitter)) ∧
    calculateDelay 0 100 10000 1 = 100 ∧
    calculateDelay 1 100 10000 1 = 200 ∧
    calculateDelay 2 100 10000 1 = 400 ∧
    calculateDelay 10 100 1000 1 = 1000 := by
  refine ⟨?_, ?_, ?_, ?_, ?_⟩
  · intro attempt baseDelay maxDelay jitter _ _ _ _
    simp [calculateDelay, min_comm]
  · norm_num [calculateDelay]
  · norm_num [calculateDelay]
  · norm_num [calculateDelay]
  · norm_num [calculateDelay]

/-- Witness for C5: the general formula instantiated at attempt 3,
base 100, cap 10000, jitter 1/2. -/
theorem calculateDelay_spec_witness :
    calculateDelay 3 100 10000 (1 / 2) = min 10000 (100 * 2 ^ 3 * (1 / 2)) :=
  calculateDelay_spec.1 3 100 10000 (1 / 2) (by norm_num) (by norm_num)
    (by norm_num) (by norm_num)

/-- Splits a character list at the first `:` — the `spec.indexOf(":")` /
`spec.slice(0, i)` / `spec.slice(i + 1)` triple of `parseModelSpec`;
`none` when no colon occurs. -/
def findColonSplit : List Char → Option (List Char × List Char)
  | [] => none
  | c :: cs =>
    if c = ':' then some ([], cs)
    else (findColonSplit cs).map (fun p => (c :: p.1, p.2))

/-- The recognized provider prefixes of `parseModelSpec`. -/
def VALID_PROVIDERS : List String := ["openai", "groq", "gemini", "cloudflare"]

/-- `ParsedModelSpec` from `src/types.ts`: the provider keeps its textual
form, as in the source (the TS code casts the slice to `ProviderType`
after a membership check). -/
structure ParsedModelSpec where
  provider : String
  model : String
  spec : String
deriving DecidableEq, Repr

/-- `parseModelSpec` from `src/models.ts`: split at the first colon,
validate the provider against the fixed set, require a non-empty model.
Errors carry the thrown `Error` messages. -/
def parseModelSpec (spec : String) : Except String ParsedModelSpec :=
  match findColonSplit spec.data with
  | none =>
    .error ("Invalid ModelSpec: \"" ++ spec ++ "\". Expected format: \"provider:model\"")
  | some (pre, post) =>
    let provider : String := ⟨pre⟩
    let model : String := ⟨post⟩
    if VALID_PROVIDERS.contains provider then
      if model = "" then
        .error ("Model ID is required in spec: \"" ++ spec ++ "\"")
      else
        .ok ⟨provider, model, spec⟩
    else
      .error ("Unknown provider: \"" ++ provider ++ "\". Expected: openai, groq, gemini, or cloudflare")

/-- The textual name of a provider. -/
def ProviderType.name : ProviderType → String
  | .groq => "groq"
  | .gemini => "gemini"
  | .cloudflare => "cloudflare"
  | .openai => "openai"

/-- `createModelSpec` from `src/models.ts`: the template string
`provider + ":" + model`. -/
def createModelSpec (provider : ProviderType) (model : String) : String :=
  provider.name ++ ":" ++ model

theorem findColonSplit_openai (m : String) :
    findColonSplit (createModelSpec .openai m).data = some ("openai".data, m.data) := rfl

theorem findColonSplit_groq (m : String) :
    findColonSplit (createModelSpec .groq m).data = some ("groq".data, m.data) := rfl

theorem findColonSplit_gemini (m : String) :
    findColonSplit (createModelSpec .gemini m).data = some ("gemini".data, m.data) := rfl

theorem findColonSplit_cloudflare (m : String) :
    findColonSplit (createModelSpec .cloudflare m).data = some ("cloudflare".data, m.data) := rfl

theorem parseModelSpec_createModelSpec (p : ProviderType) (m : String) (hm : m ≠ "") :
    parseModelSpec (createModelSpec p m) = .ok ⟨p.name, m, createModelSpec p m⟩ := by
  cases p <;>
    · unfold parseModelSpec
      first
        | rw [findColonSplit_groq]
        | rw [findColonSplit_gemini]
        | rw [findColonSplit_cloudflare]
        | rw [findColonSplit_openai]
      simp only [Option.map_some]
      rw [if_pos (by decide)]
      rw [if_neg (by simpa using hm)]
      rfl

/-- C9: round-trip — for every provider in the fixed set and every
non-empty model string, parsing the spec created by `createModelSpec`
recovers the provider (its textual form) and the model unchanged. -/
theorem parseModelSpec_roundTrip (p : ProviderType) (m : String) (hm : m ≠ "") :
    parseModelSpec (createModelSpec p m) = .ok ⟨p.name, m, createModelSpec p m⟩ :=
  parseModelSpec_createModelSpec p m hm

/-- Witness for C9: the round-trip at `groq` and model
`llama-3.1-8b-instant`. -/
theorem parseModelSpec_roundTrip_witness :
    parseModelSpec (createModelSpec .groq "llama-3.1-8b-instant") =
      .ok ⟨"groq", "llama-3.1-8b-instant", "groq:llama-3.1-8b-instant"⟩ := by
  have h := parseModelSpec_roundTrip .groq "llama-3.1-8b-instant" (by decide)
  simpa [ProviderType.name, createModelSpec] using h

/-- The opening brace character, written via its code point. -/
def lbrace : Char := Char.ofNat 123

/-- The closing brace character, written via its code point. -/
def rbrace : Char := Char.ofNat 125

/-- JSON values as produced by `JSON.parse`.  Only the integer part of a
numeric literal is retained (no claim below involves fractional values). -/
inductive Json where
  | null
  | bool (b : Bool)
  | num (n : Int)
  | str (s : String)
  | arr (elems : List Json)
  | obj (fields : List (String × Json))
deriving Repr, Inhabited

/-- JavaScript truthiness of a JSON value (`if (content)`, `if (value.response)`
tests): `null`, `false`, `0` and `""` are falsy; objects and arrays are
always truthy. -/
def Json.truthy : Json → Bool
  | .null => false
  | .bool b => b
  | .num n => n != 0
  | .str s => s ≠ ""
  | .arr _ => true
  | .obj _ => true

/-- `value === null` (strict equality against the JSON null). -/
def Json.isNull : Json → Bool
  | .null => true
  | _ => false

/-- `value === ""` (strict equality against the empty string). -/
def Json.isEmptyStr : Json → Bool
  | .str s => s = ""
  | _ => false

/-- Property access with the semantics of `obj.key` after `JSON.parse`:
`none` is JavaScript `undefined` (absent key or non-object receiver);
later duplicate keys win as in `JSON.parse`. -/
def Json.getField : Json → String → Option Json
  | .obj fields, key =>
    fields.foldl (fun acc kv => if kv.1 = key then some kv.2 else acc) none
  | _, _ => none

/-- Index access `value[i]` on a parsed JSON array; `undefined` otherwise. -/
def Json.getIdx : Json → Nat → Option Json
  | .arr elems, i => elems[i]?
  | _, _ => none

/-- JSON insignificant whitespace. -/
def isJsonWs (c : Char) : Bool :=
  c = ' ' || c = '\t' || c = '\n' || c = '\r'

/-- Skip JSON insignificant whitespace. -/
def skipWs : List Char → List Char
  | [] => []
  | c :: cs => if isJsonWs c then skipWs cs else c :: cs

/-- Translate a character following a backslash in a JSON string literal.
`\uXXXX` is not decoded (the `u` is kept), an approximation no claim
depends on. -/
def escChar (c : Char) : Char :=
  if c = 'n' then '\n'
  else if c = 't' then '\t'
  else if c = 'r' then '\r'
  else if c = 'b' then Char.ofNat 8
  else if c = 'f' then Char.ofNat 12
  else c

/-- Parse the body of a JSON string literal after the opening quote,
returning the decoded characters and the input after the closing quote. -/
def parseStringBody : List Char → Option (List Char × List Char)
  | [] => none
  | '"' :: rest => some ([], rest)
  | '\\' :: c :: rest =>
    match parseStringBody rest with
    | some (s, r) => some (escChar c :: s, r)
    | none => none
  | c :: rest =>
    match parseStringBody rest with
    | some (s, r) => some (c :: s, r)
    | none => none

/-- Parse a run of decimal digits (at least one) into a natural number. -/
def parseDigits (cs : List Char) : Option (Nat × List Char) :=
  let ds := cs.takeWhile Char.isDigit
  if ds.isEmpty then none
  else some (ds.foldl (fun a c => a * 10 + (c.toNat - 48)) 0, cs.drop ds.length)

/-- Consume an optional fraction part; a bare `.` without digits is left
in place so that the overall parse fails, as `JSON.parse` does. -/
def consumeFrac : List Char → List Char
  | '.' :: r => if (r.takeWhile Char.isDigit).isEmpty then '.' :: r else r.dropWhile Char.isDigit
  | cs => cs

/-- Consume an optional exponent part, analogously. -/
def consumeExp : List Char → List Char
  | c :: r =>
    if c = 'e' || c = 'E' then
      match r with
      | s :: r2 =>
        if s = '+' || s = '-' then
          if (r2.takeWhile Char.isDigit).isEmpty then c :: s :: r2 else r2.dropWhile Char.isDigit
        else if (r.takeWhile Char.isDigit).isEmpty then c :: r else r.dropWhile Char.isDigit
      | [] => [c]
    else c :: r
  | [] => []

/-- Parse a JSON numeric literal; only the integer part is retained. -/
def parseNumber (cs : List Char) : Option (Json × List Char) :=
  match cs with
  | '-' :: r =>
    match parseDigits r with
    | some (n, rest) => some (.num (-(n : Int)), consumeExp (consumeFrac rest))
    | none => none
  | _ =>
    match parseDigits cs with
    | some (n, rest) => some (.num (n : Int), consumeExp (consumeFrac rest))
    | none => none

mutual

/-- Fuel-indexed recursive-descent parser for a JSON value. -/
def parseValue : Nat → List Char → Option (Json × List Char)
  | 0, _ => none
  | fuel + 1, cs0 =>
    let cs := skipWs cs0
    if "null".data.isPrefixOf cs then some (.null, cs.drop 4)
    else if "true".data.isPrefixOf cs then some (.bool true, cs.drop 4)
    else if "false".data.isPrefixOf cs then some (.bool false, cs.drop 5)
    else
      match cs with
      | [] => none
      | c :: rest =>
        if c = '"' then
          match parseStringBody rest with
          | some (s, r) => some (.str ⟨s⟩, r)
          | none => none
        else if c = '[' then
          match skipWs rest with
          | ']' :: r2 => some (.arr [], r2)
          | r => parseElems fuel r []
        else if c = lbrace then
          match skipWs rest with
          | d :: r2 => if d = rbrace then some (.obj [], r2) else parseMembers fuel (d :: r2) []
          | [] => none
        else parseNumber cs

/-- Array elements after the opening bracket (non-empty case). -/
def parseElems : Nat → List Char → List Json → Option (Json × List Char)
  | 0, _, _ => none
  | fuel + 1, cs, acc =>
    match parseValue fuel cs with
    | none => none
    | some (v, r) =>
      match skipWs r with
      | ',' :: r2 => parseElems fuel r2 (acc ++ [v])
      | ']' :: r2 => some (.arr (acc ++ [v]), r2)
      | _ => none

/-- Object members after the opening brace (non-empty case). -/
def parseMembers : Nat → List Char → List (String × Json) → Option (Json × List Char)
  | 0, _, _ => none
  | fuel + 1, cs, acc =>
    match skipWs cs with
    | '"' :: rest =>
      match parseStringBody rest with
      | none => none
      | some (k, r) =>
        match skipWs r with
        | ':' :: r2 =>
          match parseValue fuel r2 with
          | none => none
          | some (v, r3) =>
            match skipWs r3 with
            | ',' :: r4 => parseMembers fuel r4 (acc ++ [(⟨k⟩, v)])
            | d :: r4 => if d = rbrace then some (.obj (acc ++ [(⟨k⟩, v)]), r4) else none
            | [] => none
        | _ => none
    | _ => none

end

/-- `JSON.parse` on a character list: parse one value and require only
whitespace to remain. -/
def jsonParse (cs : List Char) : Option Json :=
  match parseValue (2 * cs.length + 2) cs with
  | some (v, rest) => if (skipWs rest).isEmpty then some v else none
  | none => none

/-- The `Credentials` bag of `src/types.ts`: all fields optional. -/
structure Credentials where
  openaiApiKey : Option String
  groqApiKey : Option String
  geminiApiKey : Option String
  cloudflareApiKey : Option String
  cloudflareEmail : Option String
  cloudflareAccountId : Option String
deriving DecidableEq, Repr

/-- A credentials bag with every field absent. -/
def emptyCredentials : Credentials :=
  ⟨none, none, none, none, none, none⟩

/-- JavaScript truthiness of an optional string credential
(`!credentials.key` is true for an absent or empty-string value). -/
def truthyOpt : Option String → Bool
  | none => false
  | some s => s ≠ ""

/-- The pre-network part of `generate` from `src/models.ts`: parse the
spec, then run the provider `switch` up to (but not including) the single
HTTP request, whose target `(provider, model)` is the success value.
Every `throw new Error(msg)` of the source becomes `.error (.jsError msg)`
— `generate` throws plain `Error`s, not `LLMProviderError`s. -/
def generateRoute (spec : String) (credentials : Credentials) :
    Except RawValue (String × String) :=
  match parseModelSpec spec with
  | .error msg => .error (.jsError msg)
  | .ok parsed =>
    if parsed.provider = "openai" then
      if truthyOpt credentials.openaiApiKey then .ok ("openai", parsed.model)
      else .error (.jsError "openaiApiKey is required for OpenAI models")
    else if parsed.provider = "groq" then
      if truthyOpt credentials.groqApiKey then .ok ("groq", parsed.model)
      else .error (.jsError "groqApiKey is required for Groq models")
    else if parsed.provider = "gemini" then
      if truthyOpt credentials.geminiApiKey then .ok ("gemini", parsed.model)
      else .error (.jsError "geminiApiKey is required for Gemini models")
    else if parsed.provider = "cloudflare" then
      if truthyOpt credentials.cloudflareApiKey && truthyOpt credentials.cloudflareEmail
          && truthyOpt credentials.cloudflareAccountId then
        .ok ("cloudflare", parsed.model)
      else
        .error (.jsError "Cloudflare models require cloudflareApiKey, cloudflareEmail, and cloudflareAccountId")
    else .error (.jsError ("Unknown provider: " ++ parsed.provider))

/-- The model keys of the `STREAM_HANDLERS` registry in
`src/streaming-handlers.ts`. -/
def STREAM_HANDLERS : List String :=
  ["openai/gpt-oss-120b", "openai/gpt-oss-20b",
   "llama-3.1-8b-instant", "llama-3.3-70b-versatile",
   "gemini-2.0-flash", "gemini-1.5-flash", "gemini-1.5-flash-002"]

/-- `hasStreamHandler` from `src/streaming-handlers.ts`. -/
def hasStreamHandler (model : String) : Bool :=
  STREAM_HANDLERS.contains model

/-- Which streaming pipeline `UnilmpBuilder.stream` would start: a
dedicated per-model handler, the generic per-provider decoder, or the
Cloudflare REST stream. -/
inductive StreamTarget where
  | groqDedicated (model : String)
  | groqGeneric (model : String)
  | geminiDedicated (model : String)
  | geminiGeneric (model : String)
  | cloudflareRest (model : String)
deriving DecidableEq, Repr

/-- The pre-network part of `UnilmpBuilder.stream` from `src/fluent.ts`:
parse the spec, check the selected provider's credentials, and pick the
decoder pipeline.  The `default` arm of the source `switch` rejects any
other provider (including `openai`) as unsupported for streaming. -/
def streamRoute (spec : String) (credentials : Credentials) :
    Except RawValue StreamTarget :=
  match parseModelSpec spec with
  | .error msg => .error (.jsError msg)
  | .ok parsed =>
    if parsed.provider = "groq" then
      if truthyOpt credentials.groqApiKey then
        .ok (if hasStreamHandler parsed.model then .groqDedicated parsed.model
             else .groqGeneric parsed.model)
      else .error (.jsError "groqApiKey is required for Groq streaming")
    else if parsed.provider = "gemini" then
      if truthyOpt credentials.geminiApiKey then
        .ok (if hasStreamHandler parsed.model then .geminiDedicated parsed.model
             else .geminiGeneric parsed.model)
      else .error (.jsError "geminiApiKey is required for Gemini streaming")
    else if parsed.provider = "cloudflare" then
      if truthyOpt credentials.cloudflareApiKey && truthyOpt credentials.cloudflareEmail
          && truthyOpt credentials.cloudflareAccountId then
        .ok (.cloudflareRest parsed.model)
      else .error (.jsError "Cloudflare credentials required for streaming")
    else .error (.jsError ("Streaming not supported for provider: " ++ parsed.provider))

/-- An HTTP response as observed by a provider call: `ok`/`status` of the
fetch response, the `text()` used in error messages, and the parsed JSON
body used on success. -/
structure NetResponse where
  ok : Bool
  status : Nat
  bodyText : String
  body : Json
deriving Repr

/-- The `{text, usage}` result of a non-streaming generate call.  `text`
keeps the extracted JSON value (the source passes it through untyped);
`usage` holds the `prompt_tokens`/`completion_tokens` fields when a
truthy `usage` object is present. -/
structure GenerateResult where
  text : Json
  usage : Option (Option Json × Option Json)
deriving Repr

/-- `generateWithGroq` from `src/models.ts`, given the HTTP response: a
non-2xx response throws a plain `Error` embedding status and body text;
otherwise `choices[0].message.content || ""` and the usage counts are
extracted. -/
def generateWithGroq (resp : NetResponse) : Except RawValue GenerateResult :=
  if resp.ok = false then
    .error (.jsError ("Groq API error: " ++ toString resp.status ++ " " ++ resp.bodyText))
  else
    let content :=
      (((resp.body.getField "choices").bind (fun c => c.getIdx 0)).bind
        (fun c => c.getField "message")).bind (fun msg => msg.getField "content")
    let text :=
      match content with
      | some v => if v.truthy then v else Json.str ""
      | none => Json.str ""
    let usage :=
      match resp.body.getField "usage" with
      | some u =>
        if u.truthy then some (u.getField "prompt_tokens", u.getField "completion_tokens")
        else none
      | none => none
    .ok ⟨text, usage⟩

/-- C6 counterexample: the fixed provider set includes `openai`, and with
an empty credentials bag `UnilmpBuilder.stream` on an `openai:` spec does
fail before any network request — but with "Streaming not supported for
provider: openai", a message that does not name the missing
`openaiApiKey` field, contradicting the claim as stated. -/
theorem credential_gating_counterexample :
    streamRoute "openai:gpt-4" emptyCredentials =
      .error (.jsError "Streaming not supported for provider: openai") ∧
    containsStr "Streaming not supported for provider: openai" "openaiApiKey" = false :=
  ⟨rfl, rfl⟩

/-- C6 (amended): with a credentials bag lacking the selected provider's
required subset, `generate` fails before its single network request with a
message naming the missing field(s) for all four providers; `stream`
does so for groq and gemini, while for cloudflare it fails with the
generic "Cloudflare credentials required for streaming" (not naming the
three fields) and for openai it is rejected as unsupported regardless of
credentials.  In every case the failure precedes any network request
(the functions below return the network target as their success value). -/
theorem credential_gating_amended :
    (∀ (creds : Credentials) (m : String), m ≠ "" →
      truthyOpt creds.openaiApiKey = false →
      generateRoute (createModelSpec .openai m) creds =
        .error (.jsError "openaiApiKey is required for OpenAI models")) ∧
    (∀ (creds : Credentials) (m : String), m ≠ "" →
      truthyOpt creds.groqApiKey = false →
      generateRoute (createModelSpec .groq m) creds =
        .error (.jsError "groqApiKey is required for Groq models")) ∧
    (∀ (creds : Credentials) (m : String), m ≠ "" →
      truthyOpt creds.geminiApiKey = false →
      generateRoute (createModelSpec .gemini m) creds =
        .error (.jsError "geminiApiKey is required for Gemini models")) ∧
    (∀ (creds : Credentials) (m : String), m ≠ "" →
      (truthyOpt creds.cloudflareApiKey && truthyOpt creds.cloudflareEmail
        && truthyOpt creds.cloudflareAccountId) = false →
      generateRoute (createModelSpec .cloudflare m) creds =
        .error (.jsError "Cloudflare models require cloudflareApiKey, cloudflareEmail, and cloudflareAccountId")) ∧
    (∀ (creds : Credentials) (m : String), m ≠ "" →
      truthyOpt creds.groqApiKey = false →
      streamRoute (createModelSpec .groq m) creds =
        .error (.jsError "groqApiKey is required for Groq streaming")) ∧
    (∀ (creds : Credentials) (m : String), m ≠ "" →
      truthyOpt creds.geminiApiKey = false →
      streamRoute (createModelSpec .gemini m) creds =
        .error (.jsError "geminiApiKey is required for Gemini streaming")) ∧
    (∀ (creds : Credentials) (m : String), m ≠ "" →
      (truthyOpt creds.cloudflareApiKey && truthyOpt creds.cloudflareEmail
        && truthyOpt creds.cloudflareAccountId) = false →
      streamRoute (createModelSpec .cloudflare m) creds =
        .error (.jsError "Cloudflare credentials required for streaming")) ∧
    (∀ (creds : Credentials) (m : String), m ≠ "" →
      streamRoute (createModelSpec .openai m) creds =
        .error (.jsError "Streaming not supported for provider: openai")) ∧
    containsStr "openaiApiKey is required for OpenAI models" "openaiApiKey" = true ∧
    containsStr "groqApiKey is required for Groq models" "groqApiKey" = true ∧
    containsStr "geminiApiKey is required for Gemini models" "geminiApiKey" = true ∧
    (containsStr "Cloudflare models require cloudflareApiKey, cloudflareEmail, and cloudflareAccountId" "cloudflareApiKey" = true ∧
      containsStr "Cloudflare models require cloudflareApiKey, cloudflareEmail, and cloudflareAccountId" "cloudflareEmail" = true ∧
      containsStr "Cloudflare models require cloudflareApiKey, cloudflareEmail, and cloudflareAccountId" "cloudflareAccountId" = true) ∧
    containsStr "groqApiKey is required for Groq streaming" "groqApiKey" = true ∧
    containsStr "geminiApiKey is required for Gemini streaming" "geminiApiKey" = true ∧
    containsStr "Cloudflare credentials required for streaming" "cloudflareApiKey" = false := by
  refine ⟨?_, ?_, ?_, ?_, ?_, ?_, ?_, ?_, rfl, rfl, rfl, ⟨rfl, rfl, rfl⟩, rfl, rfl, rfl⟩ <;>
    · intro creds m hm
      first
        | (intro hc
           first
             | (unfold generateRoute
                rw [parseModelSpec_createModelSpec _ _ hm]
                simp [ProviderType.name, hc])
             | (unfold streamRoute
                rw [parseModelSpec_createModelSpec _ _ hm]
                simp [ProviderType.name, hc]))
        | (unfold streamRoute
           rw [parseModelSpec_createModelSpec _ _ hm]
           simp [ProviderType.name])

/-- Witness for C6 (amended): the groq conjuncts of the amended statement
at an empty credentials bag and a concrete model id. -/
theorem credential_gating_amended_witness :
    generateRoute (createModelSpec .groq "llama-3.1-8b-instant") emptyCredentials =
      .error (.jsError "groqApiKey is required for Groq models") ∧
    streamRoute (createModelSpec .groq "llama-3.1-8b-instant") emptyCredentials =
      .error (.jsError "groqApiKey is required for Groq streaming") :=
  ⟨credential_gating_amended.2.1 emptyCredentials "llama-3.1-8b-instant" (by decide) rfl,
   credential_gating_amended.2.2.2.2.1 emptyCredentials "llama-3.1-8b-instant" (by decide) rfl⟩

theorem withRetryAux_error_form (fn : Nat → Except RawValue α)
    (codes : List LLMErrorCode) :
    ∀ remaining attempt (w : LLMProviderError),
      (withRetryAux fn codes attempt remaining).1 = .error w →
      ∃ n raw, fn n = .error raw ∧ w = wrapError raw none none := by
  intro remaining
  induction remaining with
  | zero =>
    intro attempt w h
    revert h
    simp only [withRetryAux]
    cases hfn : fn attempt with
    | ok v => simp
    | error raw =>
      intro h
      exact ⟨attempt, raw, hfn, by simpa using h.symm⟩
  | succ r ih =>
    intro attempt w h
    revert h
    simp only [withRetryAux]
    cases hfn : fn attempt with
    | ok v => simp
    | error raw =>
      simp only
      split
      · intro h
        exact ih (attempt + 1) w h
      · intro h
        exact ⟨attempt, raw, hfn, by simpa using h.symm⟩

/-- C2 counterexample: a missing-credential failure from `generate` is
delivered as a plain `Error` ("groqApiKey is required for Groq models"),
not an `LLMProviderError`, contradicting the claim that every failure
crossing the boundary is an `LLMProviderError`. -/
theorem error_normalization_counterexample :
    generateRoute "groq:llama-3.1-8b-instant" emptyCredentials =
      .error (.jsError "groqApiKey is required for Groq models") ∧
    (RawValue.jsError "groqApiKey is required for Groq models").isProviderError = false :=
  ⟨rfl, rfl⟩

/-- C2 (amended): `generate`/`stream` themselves reject with plain
`Error`s — both the pre-network missing-credential failures and the
non-2xx HTTP failure of `generateWithGroq` —; normalization to
`LLMProviderError` happens at the retry layer: every rejection of
`withRetry` is the `wrapError` classification of a value the operation
threw, hence always an `LLMProviderError` carrying a code. -/
theorem error_normalization_amended {α : Type} :
    (∀ (creds : Credentials) (m : String), m ≠ "" →
      truthyOpt creds.groqApiKey = false →
      (generateRoute (createModelSpec .groq m) creds).isOk = false ∧
      generateRoute (createModelSpec .groq m) creds =
        .error (.jsError "groqApiKey is required for Groq models")) ∧
    (∀ resp : NetResponse, resp.ok = false →
      generateWithGroq resp =
        .error (.jsError ("Groq API error: " ++ toString resp.status ++ " " ++ resp.bodyText))) ∧
    (∀ (fn : Nat → Except RawValue α) (codes : List LLMErrorCode) (maxRetries : Nat)
      (w : LLMProviderError),
      withRetry fn codes maxRetries = .error w →
      ∃ n raw, fn n = .error raw ∧ w = wrapError raw none none) := by
  refine ⟨?_, ?_, ?_⟩
  · intro creds m hm hc
    have h : generateRoute (createModelSpec .groq m) creds =
        .error (.jsError "groqApiKey is required for Groq models") := by
      unfold generateRoute
      rw [parseModelSpec_createModelSpec _ _ hm]
      simp [ProviderType.name, hc]
    exact ⟨by rw [h]; rfl, h⟩
  · intro resp hok
    unfold generateWithGroq
    rw [hok]
    rfl
  · intro fn codes maxRetries w h
    exact withRetryAux_error_form fn codes maxRetries 0 w h

/-- Witness for C2 (amended): the non-2xx conjunct at a concrete 500
response, and the retry conjunct at the always-RATE_LIMIT operation with
no retries allowed. -/
theorem error_normalization_amended_witness :
    generateWithGroq ⟨false, 500, "boom", Json.null⟩ =
      .error (.jsError "Groq API error: 500 boom") ∧
    ∃ n raw, rateLimitOp n = .error raw ∧ rateLimitFailure = wrapError raw none none := by
  refine ⟨?_, ?_⟩
  · have h := (error_normalization_amended (α := Nat)).2.1 ⟨false, 500, "boom", Json.null⟩ rfl
    simpa using h
  · exact (error_normalization_amended (α := Nat)).2.2 rateLimitOp DEFAULT_RETRYABLE_CODES 0
      rateLimitFailure rfl

/-- `String.prototype.trim` on a character list (ASCII whitespace). -/
def trimChars (l : List Char) : List Char :=
  ((l.dropWhile isJsonWs).reverse.dropWhile isJsonWs).reverse

/-- The SSE event marker `"data: "` every decoder looks for. -/
def dataMarker : List Char := "data: ".data

/-- The `"[DONE]"` terminator payload. -/
def doneChars : List Char := "[DONE]".data

/-- `buffer.split("\n")` with JavaScript semantics: always at least one
(possibly empty) part, one more part per newline. -/
def splitOnNl : List Char → List (List Char)
  | [] => [[]]
  | c :: cs =>
    if c = '\n' then [] :: splitOnNl cs
    else
      match splitOnNl cs with
      | l :: ls => (c :: l) :: ls
      | [] => [[c]]

/-- Outcome of one complete line inside `callCloudflareRestStream`'s SSE
loop: terminate the generator (`[DONE]`), skip, or yield a token. -/
inductive CfLineResult where
  | done
  | skip
  | token (t : Json)

/-- One complete line of `callCloudflareRestStream` (`src/models.ts`):
trim; skip blank and non-`data: ` lines; `[DONE]` returns from the
generator; a JSON parse failure is silently skipped; a `response` field
that is defined and not the empty string is yielded. -/
def cfLineStep (line : List Char) : CfLineResult :=
  let trimmed := trimChars line
  if trimmed = [] then .skip
  else if dataMarker.isPrefixOf trimmed then
    let data := trimmed.drop 6
    if data = doneChars then .done
    else
      match jsonParse data with
      | none => .skip
      | some parsed =>
        match parsed.getField "response" with
        | none => .skip
        | some v => if v.isEmptyStr then .skip else .token v
  else .skip

/-- Process the complete lines of one decoded chunk, stopping at `[DONE]`
(`return` exits the whole generator, so later lines are dropped).  Returns
the yielded tokens and whether `[DONE]` was reached. -/
def cfLines : List (List Char) → List Json × Bool
  | [] => ([], false)
  | l :: ls =>
    match cfLineStep l with
    | .done => ([], true)
    | .skip => cfLines ls
    | .token t =>
      let next := cfLines ls
      (t :: next.1, next.2)

/-- Decoder state of `callCloudflareRestStream`: the carry-over line
buffer, the tokens yielded so far, and whether the generator returned. -/
structure CfState where
  buffer : List Char
  tokens : List Json
  done : Bool

/-- The initial decoder state. -/
def cfInit : CfState := ⟨[], [], false⟩

/-- One iteration of the read loop: append the chunk to the buffer, split
on newlines, keep the trailing incomplete line buffered, and process the
complete lines.  After the generator returned, further chunks are never
read. -/
def cfProcessChunk (st : CfState) (chunk : List Char) : CfState :=
  if st.done then st
  else
    let parts := splitOnNl (st.buffer ++ chunk)
    let newBuffer := parts.getLast?.getD []
    let lines := parts.dropLast
    let step := cfLines lines
    ⟨newBuffer, st.tokens ++ step.1, step.2⟩

/-- `callCloudflareRestStream` from `src/models.ts`, as a function from
the network chunk sequence to the yielded token sequence.  The source has
no flush: an unterminated trailing line is dropped when the reader ends. -/
def callCloudflareRestStream (chunks : List String) : List Json :=
  (chunks.foldl (fun st c => cfProcessChunk st c.data) cfInit).tokens

/-- `callCloudflareRestStream` including its HTTP gate: a non-2xx
response throws before any chunk is decoded; otherwise decoding is total
and yields the token list. -/
def callCloudflareRestStreamHttp (ok : Bool) (status : Nat) (bodyText : String)
    (chunks : List String) : Except String (List Json) :=
  if ok = false then
    .error ("Cloudflare API error: " ++ toString status ++ " " ++ bodyText)
  else .ok (callCloudflareRestStream chunks)

/-- `CloudflareStreamChunk` from `src/streams.ts`. -/
structure CloudflareStreamChunk where
  response : String
  finished : Option Bool
deriving DecidableEq, Repr

/-- `cloudflareStreamToText` from `src/streams.ts`: a truthy `finished`
closes the output stream without yielding; a truthy (non-empty) `response`
is yielded; anything else is skipped. -/
def cloudflareStreamToText : List CloudflareStreamChunk → List String
  | [] => []
  | c :: rest =>
    if c.finished.getD false then []
    else if c.response ≠ "" then c.response :: cloudflareStreamToText rest
    else cloudflareStreamToText rest

/-- The optional chain `parsed.choices?.[0]?.delta?.content`. -/
def choicesDeltaContent (parsed : Json) : Option Json :=
  (((parsed.getField "choices").bind (fun c => c.getIdx 0)).bind
    (fun c => c.getField "delta")).bind (fun d => d.getField "content")

/-- The optional chain `parsed.choices?.[0]?.text`. -/
def choicesText (parsed : Json) : Option Json :=
  ((parsed.getField "choices").bind (fun c => c.getIdx 0)).bind
    (fun c => c.getField "text")

/-- One complete line of the generic Groq decoder `createGroqStream`
(`src/fluent.ts`): blank and non-`data: ` lines and `[DONE]` are skipped;
a parse failure is skipped; the content is taken from
`choices[0].delta.content`, else `choices[0].text`, else `response`
(each fallback tried only when the previous field is `undefined`), and is
enqueued only when truthy (a populated `finish_reason` without content is
merely logged). -/
def createGroqStreamLine (line : List Char) : Option Json :=
  let trimmed := trimChars line
  if trimmed = [] then none
  else if dataMarker.isPrefixOf trimmed then
    let data := trimmed.drop 6
    if data = doneChars then none
    else
      match jsonParse data with
      | none => none
      | some parsed =>
        let content : Option Json :=
          match choicesDeltaContent parsed with
          | some v => some v
          | none =>
            match choicesText parsed with
            | some v => some v
            | none => parsed.getField "response"
        match content with
        | some v => if v.truthy then some v else none
        | none => none
  else none

/-- The token sequence the generic Groq decoder yields for a list of
complete lines. -/
def groqLinesTokens : List (List Char) → List Json
  | [] => []
  | l :: ls =>
    match createGroqStreamLine l with
    | some t => t :: groqLinesTokens ls
    | none => groqLinesTokens ls

/-- One complete line of the dedicated `gptOss120bHandler` decoder
(`src/streaming-handlers.ts`): the content is `choices[0].delta.content`
alone, enqueued whenever it is neither `undefined` nor `null`. -/
def gptOss120bLine (line : List Char) : Option Json :=
  let trimmed := trimChars line
  if trimmed = [] then none
  else if dataMarker.isPrefixOf trimmed then
    let data := trimmed.drop 6
    if data = doneChars then none
    else
      match jsonParse data with
      | none => none
      | some parsed =>
        match choicesDeltaContent parsed with
        | some v => if v.isNull then none else some v
        | none => none
  else none

theorem cfLines_skip (l : List Char) :
    ∀ xs ys, cfLineStep l = .skip → cfLines (xs ++ l :: ys) = cfLines (xs ++ ys) := by
  intro xs
  induction xs with
  | nil => intro ys h; simp [cfLines, h]
  | cons x xs ih =>
    intro ys h
    simp only [List.cons_append, cfLines]
    cases hx : cfLineStep x <;> simp [ih ys h]

theorem groqLinesTokens_skip (l : List Char) :
    ∀ xs ys, createGroqStreamLine l = none →
      groqLinesTokens (xs ++ l :: ys) = groqLinesTokens (xs ++ ys) := by
  intro xs
  induction xs with
  | nil => intro ys h; simp [groqLinesTokens, h]
  | cons x xs ih =>
    intro ys h
    simp only [List.cons_append, groqLinesTokens]
    cases hx : createGroqStreamLine x <;> simp [ih ys h]

theorem cfProcessChunk_done {st : CfState} (h : st.done = true) (c : List Char) :
    cfProcessChunk st c = st := by
  simp [cfProcessChunk, h]

theorem cfFold_done {st : CfState} (h : st.done = true) :
    ∀ extra : List String,
      List.foldl (fun s c => cfProcessChunk s c.data) st extra = st := by
  intro extra
  induction extra with
  | nil => rfl
  | cons e es ih => simp [List.foldl_cons, cfProcessChunk_done h, ih]

theorem createGroqStreamLine_of_malformed {l : List Char}
    (hpre : dataMarker.isPrefixOf (trimChars l) = true)
    (hdone : (trimChars l).drop 6 ≠ doneChars)
    (hparse : jsonParse ((trimChars l).drop 6) = none) :
    createGroqStreamLine l = none := by
  have ht : trimChars l ≠ [] := by
    intro h0
    rw [h0] at hpre
    exact absurd hpre (by decide)
  simp only [createGroqStreamLine]
  rw [if_neg ht, if_pos hpre, if_neg hdone, hparse]

theorem cfLineStep_of_malformed {l : List Char}
    (hpre : dataMarker.isPrefixOf (trimChars l) = true)
    (hdone : (trimChars l).drop 6 ≠ doneChars)
    (hparse : jsonParse ((trimChars l).drop 6) = none) :
    cfLineStep l = .skip := by
  have ht : trimChars l ≠ [] := by
    intro h0
    rw [h0] at hpre
    exact absurd hpre (by decide)
  simp only [cfLineStep]
  rw [if_neg ht, if_pos hpre, if_neg hdone, hparse]

/-- C3: the Cloudflare REST decoder.  (i) Fed the three events
`data: {"response":"Hello"}`, `data: {"response":" world"}`,
`data: [DONE]`, it yields exactly `["Hello", " world"]`, and nothing from
any chunks sent after `[DONE]`; (ii) a complete `data:` line whose
`response` equals the empty string (and carries no finished flag) yields
no token wherever it occurs; (iii) a `finished: true` chunk terminates
`cloudflareStreamToText` without yielding a token for that chunk. -/
theorem cloudflare_decoder_spec :
    (∀ extra : List String,
      callCloudflareRestStream
        (["data: \x7b\"response\":\"Hello\"\x7d\n\n",
          "data: \x7b\"response\":\" world\"\x7d\n\n",
          "data: [DONE]\n\n"] ++ extra) = [Json.str "Hello", Json.str " world"]) ∧
    (∀ xs ys : List (List Char),
      cfLines (xs ++ "data: \x7b\"response\":\"\"\x7d".data :: ys) = cfLines (xs ++ ys)) ∧
    (∀ (c : CloudflareStreamChunk) (rest : List CloudflareStreamChunk),
      c.finished = some true → cloudflareStreamToText (c :: rest) = []) := by
  refine ⟨?_, ?_, ?_⟩
  · intro extra
    unfold callCloudflareRestStream
    rw [List.foldl_append]
    have h : List.foldl (fun st c => cfProcessChunk st c.data) cfInit
        ["data: \x7b\"response\":\"Hello\"\x7d\n\n",
         "data: \x7b\"response\":\" world\"\x7d\n\n",
         "data: [DONE]\n\n"] =
        ⟨[], [Json.str "Hello", Json.str " world"], true⟩ := rfl
    rw [h, cfFold_done rfl]
  · intro xs ys
    exact cfLines_skip _ xs ys rfl
  · intro c rest h
    simp [cloudflareStreamToText, h]

/-- Witness for C3: the three-event run with one extra post-`[DONE]`
chunk, and a finished chunk (with non-empty response) fed to
`cloudflareStreamToText`. -/
theorem cloudflare_decoder_spec_witness :
    callCloudflareRestStream
      (["data: \x7b\"response\":\"Hello\"\x7d\n\n",
        "data: \x7b\"response\":\" world\"\x7d\n\n",
        "data: [DONE]\n\n"] ++ ["data: \x7b\"response\":\"ignored\"\x7d\n\n"]) =
      [Json.str "Hello", Json.str " world"] ∧
    cloudflareStreamToText [⟨"Hi", some true⟩, ⟨"later", none⟩] = [] :=
  ⟨cloudflare_decoder_spec.1 ["data: \x7b\"response\":\"ignored\"\x7d\n\n"],
   cloudflare_decoder_spec.2.2 ⟨"Hi", some true⟩ [⟨"later", none⟩] rfl⟩

/-- C4: no decoder throws on a malformed data line.  A complete `data:`
line whose payload fails JSON parsing (and is not `[DONE]`) is silently
skipped by both the generic Groq decoder and the Cloudflare decoder: the
decoded output equals that of the same line sequence with the malformed
line removed (including the `[DONE]`-reached flag for Cloudflare).  Only
a non-2xx HTTP status before streaming begins is fatal: with `ok = false`
the call throws the status/body error before decoding, and with
`ok = true` decoding always succeeds totally, whatever the chunks. -/
theorem malformed_line_skipped :
    (∀ (l : List Char) (xs ys : List (List Char)),
      dataMarker.isPrefixOf (trimChars l) = true →
      (trimChars l).drop 6 ≠ doneChars →
      jsonParse ((trimChars l).drop 6) = none →
      groqLinesTokens (xs ++ l :: ys) = groqLinesTokens (xs ++ ys) ∧
      cfLines (xs ++ l :: ys) = cfLines (xs ++ ys)) ∧
    (∀ (status : Nat) (bodyText : String) (chunks : List String),
      callCloudflareRestStreamHttp false status bodyText chunks =
        .error ("Cloudflare API error: " ++ toString status ++ " " ++ bodyText)) ∧
    (∀ (status : Nat) (bodyText : String) (chunks : List String),
      callCloudflareRestStreamHttp true status bodyText chunks =
        .ok (callCloudflareRestStream chunks)) := by
  refine ⟨?_, ?_, ?_⟩
  · intro l xs ys hpre hdone hparse
    exact ⟨groqLinesTokens_skip l xs ys (createGroqStreamLine_of_malformed hpre hdone hparse),
      cfLines_skip l xs ys (cfLineStep_of_malformed hpre hdone hparse)⟩
  · intro status bodyText chunks
    rfl
  · intro status bodyText chunks
    rfl

/-- Witness for C4: inserting the malformed line `data: {broken` between
two well-formed events changes neither decoder's output. -/
theorem malformed_line_skipped_witness :
    groqLinesTokens (["data: \x7b\"response\":\"ok\"\x7d".data] ++
        "data: \x7bbroken".data :: ["data: \x7b\"response\":\"end\"\x7d".data]) =
      groqLinesTokens (["data: \x7b\"response\":\"ok\"\x7d".data] ++
        ["data: \x7b\"response\":\"end\"\x7d".data]) ∧
    cfLines (["data: \x7b\"response\":\"ok\"\x7d".data] ++
        "data: \x7bbroken".data :: ["data: \x7b\"response\":\"end\"\x7d".data]) =
      cfLines (["data: \x7b\"response\":\"ok\"\x7d".data] ++
        ["data: \x7b\"response\":\"end\"\x7d".data]) :=
  malformed_line_skipped.1 "data: \x7bbroken".data
    ["data: \x7b\"response\":\"ok\"\x7d".data]
    ["data: \x7b\"response\":\"end\"\x7d".data] rfl (by decide) rfl

/-- C8 counterexample: the generic Groq decoder (`createGroqStream`), fed
an event whose `choices[0].delta.content` is the empty string — defined
and non-null — yields no token, because the source guards the enqueue
with JavaScript truthiness (`if (content)`), refuting "yields a token
exactly when that field is neither undefined nor null" for that decoder. -/
theorem openai_decoder_counterexample :
    createGroqStreamLine
      "data: \x7b\"choices\":[\x7b\"delta\":\x7b\"content\":\"\"\x7d\x7d]\x7d".data = none ∧
    (jsonParse "\x7b\"choices\":[\x7b\"delta\":\x7b\"content\":\"\"\x7d\x7d]\x7d".data).bind
      choicesDeltaContent = some (Json.str "") :=
  ⟨rfl, rfl⟩

/-- C8 (amended): for any complete `data:` event whose payload parses to
`j`, the dedicated gpt-oss handler yields `choices[0].delta.content`
exactly when that field is neither undefined nor null (the Bool equation
below), while the generic Groq decoder applies its fallback chain
(`choices[0].delta.content`, then `choices[0].text`, then `response`) and
yields only a truthy content — so a defined empty-string content yields no
token there.  In both, an event with a populated `finish_reason` and no
content yields nothing (final two conjuncts). -/
theorem openai_decoder_amended :
    (∀ (l : List Char) (j : Json),
      dataMarker.isPrefixOf (trimChars l) = true →
      (trimChars l).drop 6 ≠ doneChars →
      jsonParse ((trimChars l).drop 6) = some j →
      (gptOss120bLine l =
        match choicesDeltaContent j with
        | some v => if v.isNull then none else some v
        | none => none) ∧
      ((gptOss120bLine l).isSome =
        ((choicesDeltaContent j).map (fun v => !v.isNull)).getD false) ∧
      (createGroqStreamLine l =
        match
          (match choicesDeltaContent j with
           | some v => some v
           | none =>
             match choicesText j with
             | some v => some v
             | none => j.getField "response") with
        | some v => if v.truthy then some v else none
        | none => none)) ∧
    gptOss120bLine
      "data: \x7b\"choices\":[\x7b\"delta\":\x7b\x7d,\"finish_reason\":\"stop\"\x7d]\x7d".data = none ∧
    createGroqStreamLine
      "data: \x7b\"choices\":[\x7b\"delta\":\x7b\x7d,\"finish_reason\":\"stop\"\x7d]\x7d".data = none := by
  refine ⟨?_, rfl, rfl⟩
  intro l j hpre hdone hparse
  have ht : trimChars l ≠ [] := by
    intro h0
    rw [h0] at hpre
    exact absurd hpre (by decide)
  have heq : gptOss120bLine l =
      match choicesDeltaContent j with
      | some v => if v.isNull then none else some v
      | none => none := by
    simp only [gptOss120bLine]
    rw [if_neg ht, if_pos hpre, if_neg hdone, hparse]
    try rfl
  refine ⟨heq, ?_, ?_⟩
  · rw [heq]
    cases hcd : choicesDeltaContent j with
    | none => rfl
    | some v => cases v <;> rfl
  · simp only [createGroqStreamLine]
    rw [if_neg ht, if_pos hpre, if_neg hdone, hparse]
    try rfl

/-- Witness for C8 (amended): the token-presence equation of the amended
statement at a concrete event carrying content `"Hi"`. -/
theorem openai_decoder_amended_witness :
    (gptOss120bLine
      "data: \x7b\"choices\":[\x7b\"delta\":\x7b\"content\":\"Hi\"\x7d\x7d]\x7d".data).isSome =
    ((choicesDeltaContent
        (Json.obj [("choices",
          Json.arr [Json.obj [("delta", Json.obj [("content", Json.str "Hi")])]])])).map
      (fun v => !v.isNull)).getD false :=
  (openai_decoder_amended.1
    "data: \x7b\"choices\":[\x7b\"delta\":\x7b\"content\":\"Hi\"\x7d\x7d]\x7d".data
    (Json.obj [("choices",
      Json.arr [Json.obj [("delta", Json.obj [("content", Json.str "Hi")])]])])
    rfl (by decide) rfl).2.1
